import Mathlib

/-!
Verification of the chat context/streaming subsystem of the doc_annotator
backend (`src/backend/app`): the `ContextManager` extraction engine
(`services/context_manager.py`), the unified LLM streaming service
(`services/unified_llm_service.py`), the provider-routing client
(`services/llm_client.py`) and the streaming chat route
(`api/chat.py`, `send_message.generate`).

Python strings are modelled as Lean `String` over their code points, Python
dicts that serve as records become structures whose fields are the keys the
code reads or writes, `None`-able values become `Option`, float thresholds
become exact rationals, and the wall clock is passed in as an explicit
parameter.  Async generators become pure functions from their (explicit)
upstream event list to the list of values they yield.
-/

namespace DocAnnotator

/-! ### Python string primitives -/

/-- Python whitespace for `str.strip` / `str.split` / regex `\s`:
space, tab, newline, carriage return, vertical tab, form feed. -/
def isPySpace (c : Char) : Bool :=
  c = ' ' || c = '\t' || c = '\n' || c = '\r' || c = '\x0b' || c = '\x0c'

/-- Python `str.lower` (inputs here are ASCII). -/
def pyLower (s : String) : String := String.mk (s.data.map Char.toLower)

/-- Python `str.strip()` with no arguments. -/
def pyStrip (s : String) : String :=
  String.mk (((s.data.dropWhile isPySpace).reverse.dropWhile isPySpace).reverse)

/-- Helper for `pySplitWs`: accumulate the current word (reversed). -/
def wordsAux : List Char → List Char → List String
  | [], acc => if acc.isEmpty then [] else [String.mk acc.reverse]
  | c :: cs, acc =>
    if isPySpace c then
      if acc.isEmpty then wordsAux cs [] else String.mk acc.reverse :: wordsAux cs []
    else wordsAux cs (c :: acc)

/-- Python `str.split()` with no arguments: maximal runs of non-whitespace. -/
def pySplitWs (s : String) : List String := wordsAux s.data []

/-- The set of whitespace-separated words of a string (`set(text.split())`). -/
def splitWords (s : String) : Finset String := (pySplitWs s).toFinset

/-- Python `needle in haystack` substring test. -/
def strContains (haystack needle : String) : Bool :=
  haystack.data.tails.any (fun t => needle.data.isPrefixOf t)

/-- Python `s.startswith(p)`. -/
def pyStartsWith (s p : String) : Bool := p.data.isPrefixOf s.data

/-- Python `s.endswith(p)`. -/
def pyEndsWith (s p : String) : Bool := p.data.reverse.isPrefixOf s.data.reverse

/-! ### ContextManager: lexical similarity and priority classification
(`services/context_manager.py`) -/

namespace ContextManager

/-- `ContextManager._text_similarity`: word-Jaccard similarity of the
whitespace-tokenized word sets, with the two degenerate cases the code
special-cases (both empty gives 1.0, exactly one empty gives 0.0). -/
def text_similarity (text1 text2 : String) : ℚ :=
  let words1 := splitWords text1
  let words2 := splitWords text2
  if words1 = ∅ ∧ words2 = ∅ then 1
  else if words1 = ∅ ∨ words2 = ∅ then 0
  else ((words1 ∩ words2).card : ℚ) / ((words1 ∪ words2).card : ℚ)

/-- `ContextManager.__init__`: the `priority_keywords` dict, in its Python
insertion (and hence iteration) order: high, medium, low. -/
def priority_keywords : List (String × List String) :=
  [("high", ["urgent", "critical", "important", "asap", "priority", "immediately"]),
   ("medium", ["should", "need", "important", "soon"]),
   ("low", ["might", "could", "eventually", "later", "someday"])]

/-- `ContextManager._determine_priority`: first keyword set (in dict order)
with a member occurring as a substring of the lowercased text wins;
default "medium". -/
def determine_priority (text : String) : String :=
  let text_lower := pyLower text
  match priority_keywords.find? (fun p => p.2.any (fun kw => strContains text_lower kw)) with
  | some p => p.1
  | none => "medium"

/-- `ContextManager._is_question`: interrogative opener words. -/
def question_words : List String :=
  ["what", "how", "why", "when", "where", "who", "which", "can", "could", "would", "should"]

/-- `ContextManager._is_question`: ends with `?`, or the lowercased stripped
text starts with an interrogative word. -/
def is_question (text : String) : Bool :=
  let text_lower := pyStrip (pyLower text)
  pyEndsWith text "?" || question_words.any (fun w => pyStartsWith text_lower w)

end ContextManager

/-! ### A matcher engine for the concrete regular expressions of
`ContextManager`.

Every pattern in `context_manager.py` has the shape
`ALTERNATIVES TAIL ([^.]+)` where `TAIL` is one of `\s+`, `:\s*`,
`\s*\d*:\s*`, `,?\s*`, `^\s*\d+\.\s*` or `^\s*[-*]\s*`.  Each matcher below
reproduces Python `re` semantics for its pattern at one start position —
ordered alternation, greedy quantifiers with backtracking (when `[^.]+`
finds no character after a maximal whitespace run, `\s+`/`\s*` gives one
whitespace character back and the capture becomes that single whitespace
character) — returning the capture group and the number of characters the
whole match consumed.  `re.findall` then scans positions left to right,
resuming after the end of each match. -/

/-- Length of the whitespace run (`\s*` / `\s+`) at the head. -/
def wsRun (cs : List Char) : Nat := (cs.takeWhile isPySpace).length

/-- Length of the `[^.]*` run at the head. -/
def nonDotRun (cs : List Char) : Nat := (cs.takeWhile (fun c => c ≠ '.')).length

/-- Length of the digit run (`\d*`) at the head. -/
def digitRun (cs : List Char) : Nat := (cs.takeWhile Char.isDigit).length

/-- Match `\s+([^.]+)` at the head: at least one whitespace character, then a
greedy non-empty capture of non-dot characters; if no non-dot character
follows the maximal whitespace run, backtracking lets the capture take the
last whitespace character (possible only when the run has length at least
two). Returns (capture, consumed). -/
def tailSpacePlus (cs : List Char) : Option (String × Nat) :=
  let w := wsRun cs
  if w = 0 then none
  else
    let after := cs.drop w
    let nd := nonDotRun after
    if nd ≠ 0 then some (String.mk (after.take nd), w + nd)
    else if 2 ≤ w then some (String.mk ((cs.drop (w - 1)).take 1), w)
    else none

/-- Match `\s*([^.]+)` at the head (same backtracking analysis as
`tailSpacePlus`, but the whitespace run may be empty). -/
def tailSpaceStar (cs : List Char) : Option (String × Nat) :=
  let w := wsRun cs
  let after := cs.drop w
  let nd := nonDotRun after
  if nd ≠ 0 then some (String.mk (after.take nd), w + nd)
  else if 1 ≤ w then some (String.mk ((cs.drop (w - 1)).take 1), w)
  else none

/-- Match `:\s*([^.]+)` at the head. -/
def tailColon (cs : List Char) : Option (String × Nat) :=
  match cs with
  | ':' :: rest => (tailSpaceStar rest).map (fun p => (p.1, p.2 + 1))
  | _ => none

/-- Match `\s*\d*:\s*([^.]+)` at the head (the `action|step` pattern's tail;
whitespace and digit characters are disjoint from `:`, so only the maximal
runs can be followed by the colon). -/
def tailSpaceDigitsColon (cs : List Char) : Option (String × Nat) :=
  let w := wsRun cs
  let afterW := cs.drop w
  let d := digitRun afterW
  match afterW.drop d with
  | ':' :: rest => (tailSpaceStar rest).map (fun p => (p.1, w + d + 1 + p.2))
  | _ => none

/-- Match `,?\s*([^.]+)` at the head: the optional comma is tried greedily
first; if the rest fails with the comma consumed, the comma is given back
(and may then be captured by `[^.]+` itself). -/
def tailCommaOpt (cs : List Char) : Option (String × Nat) :=
  match cs with
  | ',' :: rest =>
    match tailSpaceStar rest with
    | some p => some (p.1, p.2 + 1)
    | none => tailSpaceStar cs
  | _ => tailSpaceStar cs

/-- First alternative (in pattern order) whose literal matches
case-insensitively at the head and whose tail then matches. -/
def matchKwTail (kws : List String) (tail : List Char → Option (String × Nat)) :
    List Char → Option (String × Nat) :=
  fun cs =>
    kws.findSome? fun kw =>
      if (cs.take kw.length).map Char.toLower == kw.data then
        (tail (cs.drop kw.length)).map (fun p => (p.1, kw.length + p.2))
      else none

/-- Match `^\s*\d+\.\s*([^.]+)` at a line start (`^` itself is handled by
`findallML`; note that `\s*` may consume further newlines). -/
def matchNumbered (cs : List Char) : Option (String × Nat) :=
  let w := wsRun cs
  let afterW := cs.drop w
  let d := digitRun afterW
  if d = 0 then none
  else
    match afterW.drop d with
    | '.' :: rest => (tailSpaceStar rest).map (fun p => (p.1, w + d + 1 + p.2))
    | _ => none

/-- Match `^\s*[-*]\s*([^.]+)` at a line start. -/
def matchBullet (cs : List Char) : Option (String × Nat) :=
  let w := wsRun cs
  match cs.drop w with
  | c :: rest =>
    if c = '-' || c = '*' then (tailSpaceStar rest).map (fun p => (p.1, w + 1 + p.2))
    else none
  | [] => none

/-- `re.findall` scanning loop for an unanchored pattern: try the matcher at
each position left to right; on a match, emit the capture and resume after
the match.  Every match here consumes at least one character, so fuel equal
to the text length suffices exactly. -/
def findallGo (m : List Char → Option (String × Nat)) : Nat → List Char → List String
  | 0, _ => []
  | _ + 1, [] => []
  | fuel + 1, cs@(_ :: rest) =>
    match m cs with
    | some p => p.1 :: findallGo m fuel (cs.drop (max p.2 1))
    | none => findallGo m fuel rest

/-- `re.findall(pattern, text)` for an unanchored pattern. -/
def findall (m : List Char → Option (String × Nat)) (s : String) : List String :=
  findallGo m (s.data.length + 1) s.data

/-- `re.findall` scanning loop with `re.MULTILINE` and a leading `^`: a match
may only start at the beginning of the text or directly after a newline;
after a match the "at line start" state is whether the last consumed
character was a newline. -/
def findallMLGo (m : List Char → Option (String × Nat)) :
    Nat → Bool → List Char → List String
  | 0, _, _ => []
  | _ + 1, _, [] => []
  | fuel + 1, atStart, cs@(c :: rest) =>
    if atStart then
      match m cs with
      | some p =>
        let n := max p.2 1
        p.1 :: findallMLGo m fuel ((cs.take n).getLast? == some '\n') (cs.drop n)
      | none => findallMLGo m fuel (c == '\n') rest
    else findallMLGo m fuel (c == '\n') rest

/-- `re.findall(pattern, text, re.MULTILINE)` for a `^`-anchored pattern. -/
def findallML (m : List Char → Option (String × Nat)) (s : String) : List String :=
  findallMLGo m (s.data.length + 1) true s.data

namespace ContextManager

/-- Alternatives of task pattern 1: `(?i)(?:need to|should|must|have to|going to|will)\s+([^.]+)`. -/
def kwsModal : List String := ["need to", "should", "must", "have to", "going to", "will"]

/-- Alternatives of task pattern 2: `(?i)(?:todo|to-do|task):\s*([^.]+)`. -/
def kwsTodo : List String := ["todo", "to-do", "task"]

/-- Alternatives of task pattern 3: `(?i)(?:action|step)\s*\d*:\s*([^.]+)`. -/
def kwsActionStep : List String := ["action", "step"]

/-- Alternatives of task pattern 4: `(?i)(?:next|then|after that),?\s*([^.]+)`. -/
def kwsNext : List String := ["next", "then", "after that"]

/-- Alternatives of goal pattern 1:
`(?i)(?:trying to|wanting to|need to|goal is to|objective is to|aim is to)\s+([^.]+)`. -/
def kwsGoal1 : List String :=
  ["trying to", "wanting to", "need to", "goal is to", "objective is to", "aim is to"]

/-- Alternatives of goal pattern 2: `(?i)(?:working on|focusing on)\s+([^.]+)`. -/
def kwsGoal2 : List String := ["working on", "focusing on"]

/-- Alternatives of goal pattern 3: `(?i)(?:problem|issue|challenge):\s*([^.]+)`. -/
def kwsGoal3 : List String := ["problem", "issue", "challenge"]

/-- A task dict as built by `_extract_tasks` and completed by `_update_tasks`
(keys `description`, `priority`, `source`, `created_at`, and after the merge
`id` and `status`). -/
structure ExtractedTask where
  description : String
  priority : String
  source : String
  created_at : String
  id : Option String := none
  status : Option String := none
deriving DecidableEq, Repr

/-- Build one task dict from a captured span (`_extract_tasks` body);
`nowIso` stands for `datetime.utcnow().isoformat()`. -/
def mkTask (description source nowIso : String) : ExtractedTask :=
  { description := description
    priority := determine_priority description
    source := source
    created_at := nowIso }

/-- `ContextManager._deduplicate_tasks` recursion: drop a task when its
lowercased stripped description has similarity above 0.8 to one already
seen in this pass (`seen_descriptions` is a set, but only existence is
tested, so a list models it). -/
def dedupGo : List ExtractedTask → List String → List ExtractedTask
  | [], _ => []
  | t :: rest, seen =>
    let description := pyStrip (pyLower t.description)
    if seen.any (fun s => text_similarity description s > (4 : ℚ) / 5) then dedupGo rest seen
    else t :: dedupGo rest (description :: seen)

/-- `ContextManager._deduplicate_tasks`. -/
def deduplicate_tasks (tasks : List ExtractedTask) : List ExtractedTask :=
  dedupGo tasks []

/-- `ContextManager._extract_tasks`: the four unanchored task patterns in
order, then numbered-list lines, then bullet-list lines (excluding
questions); each capture is stripped and kept only if longer than five
characters; finally the pass is locally deduplicated. -/
def extract_tasks (text : String) (nowIso : String) : List ExtractedTask :=
  let p1 := findall (matchKwTail kwsModal tailSpacePlus) text
  let p2 := findall (matchKwTail kwsTodo tailColon) text
  let p3 := findall (matchKwTail kwsActionStep tailSpaceDigitsColon) text
  let p4 := findall (matchKwTail kwsNext tailCommaOpt) text
  let fromPatterns := (p1 ++ p2 ++ p3 ++ p4).filterMap fun m =>
    let task_text := pyStrip m
    if 5 < task_text.length then some (mkTask task_text "extracted" nowIso) else none
  let numbered := (findallML matchNumbered text).filterMap fun m =>
    let task_text := pyStrip m
    if 5 < task_text.length then some (mkTask task_text "numbered_list" nowIso) else none
  let bullets := (findallML matchBullet text).filterMap fun m =>
    let task_text := pyStrip m
    if 5 < task_text.length && !is_question task_text then
      some (mkTask task_text "bullet_list" nowIso)
    else none
  deduplicate_tasks (fromPatterns ++ numbered ++ bullets)

/-- `ContextManager._extract_goals`: the three goal patterns in order;
captures are stripped and kept only if longer than ten characters. -/
def extract_goals (text : String) : List String :=
  let g1 := findall (matchKwTail kwsGoal1 tailSpacePlus) text
  let g2 := findall (matchKwTail kwsGoal2 tailSpacePlus) text
  let g3 := findall (matchKwTail kwsGoal3 tailColon) text
  (g1 ++ g2 ++ g3).filterMap fun m =>
    let goal_text := pyStrip m
    if 10 < goal_text.length then some goal_text else none

end ContextManager

/-! ### The `ChatContext` entity (`models/chat.py`) -/

/-- The `ChatContext` SQLAlchemy model: columns `summary`, `current_goal`,
`tasks`, `relevant_documents` (all nullable; JSON columns are `None` on a
freshly constructed instance and filled by their defaults only on insert).
The model defines NO `problem_summary` attribute — this matters below. -/
structure ChatContext where
  summary : Option String := none
  current_goal : Option String := none
  tasks : Option (List ContextManager.ExtractedTask) := none
  relevant_documents : Option (List String) := none
deriving DecidableEq, Repr

namespace ContextManager

/-- The id `_update_tasks` generates for the task appended when the list has
`n` existing entries: `f"task-{n + 1}-{int(datetime.utcnow().timestamp())}"`
with the clock passed in as `now`. -/
def mkTaskId (n : Nat) (now : Nat) : String :=
  "task-" ++ toString (n + 1) ++ "-" ++ toString now

/-- The merge loop of `ContextManager._update_tasks`: each new task is
compared (similarity threshold 0.7, on lowercased descriptions) against
the growing `existing_tasks` list — the list is appended to in place, so
later new tasks are also compared against the new tasks already admitted;
admitted tasks get a fresh id and status "pending". -/
def mergeTasksLoop (now : Nat) :
    List ExtractedTask → List ExtractedTask → List ExtractedTask
  | existing_tasks, [] => existing_tasks
  | existing_tasks, new_task :: rest =>
    if existing_tasks.any (fun existing_task =>
        text_similarity (pyLower existing_task.description) (pyLower new_task.description)
          > (7 : ℚ) / 10) then
      mergeTasksLoop now existing_tasks rest
    else
      mergeTasksLoop now
        (existing_tasks ++ [{ new_task with id := some (mkTaskId existing_tasks.length now),
                                            status := some "pending" }])
        rest

/-- `ContextManager._update_tasks`: with no new tasks the context is
returned untouched (in particular `context.tasks` is not re-assigned);
otherwise the merge loop runs over `context.tasks or []`. -/
def update_tasks (context : ChatContext) (new_tasks : List ExtractedTask) (now : Nat) :
    ChatContext :=
  if new_tasks.isEmpty then context
  else { context with tasks := some (mergeTasksLoop now (context.tasks.getD []) new_tasks) }

/-- Python `max(new_goals, key=len)` for a non-empty list: the first element
of maximal length (later elements replace the champion only when strictly
longer). -/
def maxByLen (g : String) (gs : List String) : String :=
  gs.foldl (fun best x => if best.length < x.length then x else best) g

/-- `ContextManager._update_goals`: the longest extracted goal replaces
`current_goal` only when strictly longer than the current goal's text
(an absent goal counts as the empty string). -/
def update_goals (context : ChatContext) (new_goals : List String) : ChatContext :=
  match new_goals with
  | [] => context
  | g :: gs =>
    let most_specific_goal := maxByLen g gs
    if (context.current_goal.getD "").length < most_specific_goal.length then
      { context with current_goal := some most_specific_goal }
    else context

/-- Recursion for `splitSentences`: `cur` is the current segment reversed,
`inRun` records whether the previous character was a sentence terminator
(a maximal terminator run produces a single boundary). -/
def splitSentencesAux : List Char → List Char → Bool → List (List Char)
  | [], cur, _ => [cur.reverse]
  | c :: rest, cur, inRun =>
    if c = '.' || c = '!' || c = '?' then
      if inRun then splitSentencesAux rest [] true
      else cur.reverse :: splitSentencesAux rest [] true
    else splitSentencesAux rest (c :: cur) false

/-- Python `re.split(r"[.!?]+", text)`: split on maximal runs of sentence
terminators, keeping empty segments (the result is never empty). -/
def splitSentences (cs : List Char) : List (List Char) :=
  splitSentencesAux cs [] false

/-- The summary value lines 217-224 of `context_manager.py` compute from the
first user message: the stripped first sentence if the raw first sentence
has more than ten characters, otherwise the stripped first 150 characters
with an ellipsis appended when the message is longer than 150 characters. -/
def summary_from_message (user_message : String) : String :=
  let sentences := splitSentences user_message.data
  let first := String.mk (sentences.headD [])
  if 10 < first.length then pyStrip first
  else
    let base := pyStrip (String.mk (user_message.data.take 150))
    if 150 < user_message.length then base ++ "..." else base

/-- `ContextManager._update_summary`: the function's first test reads
`context.problem_summary`, but the `ChatContext` model (`models/chat.py`)
defines a `summary` column and no `problem_summary` attribute, so on every
call the read raises `AttributeError` before any assignment happens; the
summary logic itself (embedded as `summary_from_message`) is unreachable. -/
def update_summary (context : ChatContext) (user_message : String)
    (assistant_response : String) : Except String ChatContext :=
  .error "AttributeError: 'ChatContext' object has no attribute 'problem_summary'"

/-- `ContextManager.update_from_conversation` with the `try`/`except` made
explicit: a `None` message makes `re.findall` raise `TypeError` before any
context mutation; with string inputs the task and goal updates are applied
in place, after which `_update_summary` raises (see `update_summary`) and
the `except` swallows the error, keeping the mutations already made.
Returns the final context and the swallowed error, if any. -/
def update_from_conversation_run (context : ChatContext)
    (user_message assistant_response : Option String) (now : Nat) (nowIso : String) :
    ChatContext × Option String :=
  match user_message, assistant_response with
  | some u, some a =>
    let user_tasks := extract_tasks u nowIso
    let assistant_tasks := extract_tasks a nowIso
    let user_goals := extract_goals u
    let assistant_goals := extract_goals a
    let ctx1 := update_tasks context (user_tasks ++ assistant_tasks) now
    let ctx2 := update_goals ctx1 (user_goals ++ assistant_goals)
    match update_summary ctx2 u a with
    | .ok ctx3 => (ctx3, none)
    | .error e => (ctx2, some e)
  | none, _ => (context, some "TypeError: expected string or bytes-like object")
  | some _, none => (context, some "TypeError: expected string or bytes-like object")

/-- `ContextManager.update_from_conversation` as seen by its caller: the
context after the call (the swallowed internal error is invisible). -/
def update_from_conversation (context : ChatContext)
    (user_message assistant_response : Option String) (now : Nat) (nowIso : String) :
    ChatContext :=
  (update_from_conversation_run context user_message assistant_response now nowIso).1

/-! #### Document relevance (`ContextManager.extract_document_relevance`) -/

/-- Python regex `\w` (for the ASCII texts at hand): letters, digits, underscore. -/
def isWordChar (c : Char) : Bool := c.isAlphanum || c = '_'

/-- Helper for `findWords`: accumulate the current `\w+` run (reversed). -/
def findWordsAux : List Char → List Char → List String
  | [], acc => if acc.isEmpty then [] else [String.mk acc.reverse]
  | c :: cs, acc =>
    if isWordChar c then findWordsAux cs (c :: acc)
    else if acc.isEmpty then findWordsAux cs [] else String.mk acc.reverse :: findWordsAux cs []

/-- `set(re.findall(r"\w+", text))`: the set of maximal word-character runs. -/
def findWords (s : String) : Finset String := (findWordsAux s.data []).toFinset

/-- One entry of the `available_documents` list: a dict read with
`doc.get("id", "")`, `doc.get("title", "")`, `doc.get("content", "")`,
`doc.get("tags", [])`, so every key may be absent. -/
structure AvailableDocument where
  id : Option String := none
  title : Option String := none
  content : Option String := none
  tags : Option (List String) := none
deriving DecidableEq, Repr

/-- Python `" ".join(xs)`. -/
def joinSpace : List String → String
  | [] => ""
  | [x] => x
  | x :: xs => x ++ " " ++ joinSpace xs

/-- `ContextManager.extract_document_relevance` loop over the candidates:
a document is appended when its lowercased title or its id (as given)
occurs as a substring of the lowercased conversation text; otherwise when
the `\w+` word sets of the conversation and of title-plus-tags share more
than two words and the shared count exceeds 0.3 of the document word set
(the score is 0 when the document word set is empty).  The document's
`content` is read by the code but never used. -/
def relevanceLoop (conversation_lower : String) : List AvailableDocument → List String
  | [] => []
  | doc :: rest =>
    let doc_id := doc.id.getD ""
    let doc_title := pyLower (doc.title.getD "")
    let doc_tags := (doc.tags.getD []).map pyLower
    if strContains conversation_lower doc_title || strContains conversation_lower doc_id then
      doc_id :: relevanceLoop conversation_lower rest
    else
      let conversation_words := findWords conversation_lower
      let doc_words := findWords (doc_title ++ " " ++ joinSpace doc_tags)
      let common_words := conversation_words ∩ doc_words
      if 2 < common_words.card then
        let relevance_score : ℚ :=
          if doc_words ≠ ∅ then (common_words.card : ℚ) / (doc_words.card : ℚ) else 0
        if relevance_score > (3 : ℚ) / 10 then doc_id :: relevanceLoop conversation_lower rest
        else relevanceLoop conversation_lower rest
      else relevanceLoop conversation_lower rest

/-- `ContextManager.extract_document_relevance` (the `context` parameter of
the Python method is unused by its body). -/
def extract_document_relevance (conversation_text : String)
    (available_documents : List AvailableDocument) : List String :=
  relevanceLoop (pyLower conversation_text) available_documents

end ContextManager

/-! ### StreamEnvelope values (`schemas/chat.py`, class `StreamingResponse`) -/

/-- The `usage` metadata sub-dict, as read by the chat route
(`chunk.metadata.get("usage", {}).get("output_tokens")`). -/
structure UsageMeta where
  input_tokens : Option Int := none
  output_tokens : Option Int := none
deriving DecidableEq, Repr

/-- The `metadata` dict attached to envelopes, restricted to the keys the
modelled code writes or reads (`model`, `finish_reason`, `usage`); `none`
stands for an absent/falsy metadata dict. -/
structure EnvelopeMeta where
  model : Option String := none
  finish_reason : Option String := none
  usage : Option UsageMeta := none
deriving DecidableEq, Repr

/-- `schemas/chat.py` `StreamingResponse`: the StreamEnvelope value
(`type` is "chunk", "complete" or "error"). -/
structure StreamingResponse where
  type : String
  content : String := ""
  metadata : Option EnvelopeMeta := none
  error : Option String := none
deriving DecidableEq, Repr

/-- An error envelope as built throughout the services:
`StreamingResponse(type="error", content="", error=msg)`. -/
def mkErrorEnvelope (msg : String) : StreamingResponse :=
  { type := "error", error := some msg }

/-- Whether an envelope is terminal (a `complete` or an `error`). -/
def isTerminal (e : StreamingResponse) : Bool :=
  e.type == "complete" || e.type == "error"

/-! ### UnifiedLLMService (`services/unified_llm_service.py`) -/

namespace UnifiedLLMService

/-- `ModelConfig` dataclass. -/
structure ModelConfig where
  technical_name : String
  common_name : String
  provider : String
deriving DecidableEq, Repr

/-- `ProviderConfig` dataclass. -/
structure ProviderConfig where
  type : String
  base_url : String := ""
  api_key_env : String := ""
  max_tokens_param : String := "max_tokens"
deriving DecidableEq, Repr

/-- The service's registries (`self.models`, `self.providers`), as ordered
association lists mirroring the Python dicts. -/
structure ServiceState where
  models : List (String × ModelConfig)
  providers : List (String × ProviderConfig)
deriving Repr

/-- Python `dict.get` / `in` on the registry dicts. -/
def lookup {α : Type} (l : List (String × α)) (k : String) : Option α :=
  (l.find? (fun p => p.1 == k)).map (fun p => p.2)

/-- One `data:`-prefixed SSE line of an OpenAI-style streaming response, in
the parsed form the code's own case analysis induces: not a `data:` line;
the `[DONE]` sentinel; a line whose JSON decoding fails; valid JSON without
a non-empty `choices` array; or a frame carrying `choices[0].delta.content`
(the empty string when absent or falsy) and `choices[0].finish_reason`. -/
inductive OpenAILine
  | notData
  | done
  | badJson
  | noChoices
  | frame (content : String) (finish_reason : Option String)
deriving DecidableEq, Repr

/-- The possible outcomes of the upstream streaming HTTP call: an HTTP
error status (`raise_for_status`), some other transport exception, or a
successful response delivering a sequence of lines of wire format `L`
(possibly truncated: the upstream may close without ever sending a
completion marker). -/
inductive UpstreamResult (L : Type)
  | httpError (status : Nat) (detail : String)
  | exn (msg : String)
  | ok (lines : List L)
deriving DecidableEq, Repr

/-- The line loop of `_openai_chat_completion` (stream=True): `data:` lines
are examined in order; `[DONE]` yields a bare `complete` and breaks; a
frame first yields a `chunk` when its content is non-empty (truthy), then
yields a `complete` and breaks when its finish reason is truthy; all other
lines are skipped.  When the lines run out without a completion marker the
loop simply ends — nothing further is yielded. -/
def openaiLineLoop (technical_name : String) : List OpenAILine → List StreamingResponse
  | [] => []
  | line :: rest =>
    match line with
    | .notData => openaiLineLoop technical_name rest
    | .badJson => openaiLineLoop technical_name rest
    | .noChoices => openaiLineLoop technical_name rest
    | .done => [{ type := "complete" }]
    | .frame content finish_reason =>
      let chunks : List StreamingResponse :=
        if content ≠ "" then
          [{ type := "chunk", content := content,
             metadata := some { model := some technical_name } }]
        else []
      match finish_reason with
      | some fr =>
        if fr ≠ "" then
          chunks ++ [{ type := "complete",
                       metadata := some { model := some technical_name,
                                          finish_reason := some fr } }]
        else chunks ++ openaiLineLoop technical_name rest
      | none => chunks ++ openaiLineLoop technical_name rest

/-- `UnifiedLLMService._openai_chat_completion` (stream=True): HTTP and
transport errors are converted to a single `error` envelope; otherwise the
line loop runs over the response lines. -/
def openai_chat_completion (model_config : ModelConfig)
    (upstream : UpstreamResult OpenAILine) : List StreamingResponse :=
  match upstream with
  | .httpError status detail =>
    [mkErrorEnvelope ("HTTP " ++ toString status ++ ": " ++ detail)]
  | .exn msg => [mkErrorEnvelope msg]
  | .ok lines => openaiLineLoop model_config.technical_name lines

/-- One `data:` line of an Anthropic-style streaming response, in the
parsed form `_anthropic_chat_completion`'s case analysis induces. -/
inductive AnthropicLine
  | notData
  | badJson
  | contentBlockDelta (text : String)
  | messageStop
  | otherType
deriving DecidableEq, Repr

/-- The line loop of `_anthropic_chat_completion` (stream=True):
`content_block_delta` yields a `chunk` when the delta text is non-empty;
`message_stop` yields a bare `complete` and breaks; other lines are
skipped; exhaustion without `message_stop` yields nothing further. -/
def anthropicLineLoop : List AnthropicLine → List StreamingResponse
  | [] => []
  | line :: rest =>
    match line with
    | .notData => anthropicLineLoop rest
    | .badJson => anthropicLineLoop rest
    | .otherType => anthropicLineLoop rest
    | .messageStop => [{ type := "complete" }]
    | .contentBlockDelta text =>
      if text ≠ "" then { type := "chunk", content := text } :: anthropicLineLoop rest
      else anthropicLineLoop rest

/-- `UnifiedLLMService._anthropic_chat_completion` (stream=True): any
exception becomes a single `error` envelope (this branch catches even HTTP
status errors with its generic `except Exception` handler, stringifying
the exception); otherwise the line loop runs. -/
def anthropic_chat_completion (upstream : UpstreamResult AnthropicLine) :
    List StreamingResponse :=
  match upstream with
  | .httpError status detail =>
    [mkErrorEnvelope ("HTTP " ++ toString status ++ ": " ++ detail)]
  | .exn msg => [mkErrorEnvelope msg]
  | .ok lines => anthropicLineLoop lines

/-- `UnifiedLLMService.chat_completion` (stream=True), parameterized by the
outcome of the single upstream call under each wire format (exactly one of
the two is consumed, selected by the resolved provider's type): an
unregistered model id yields a single `error` envelope naming the model
and makes no provider call; a registered model whose provider key is
missing raises `KeyError` to the caller (the dict subscript sits before
the `try`), modelled as `.error`; an unsupported provider type yields a
single `error` envelope. -/
def chat_completion (st : ServiceState) (model_id : String)
    (upstreamO : UpstreamResult OpenAILine) (upstreamA : UpstreamResult AnthropicLine) :
    Except String (List StreamingResponse) :=
  match lookup st.models model_id with
  | none =>
    .ok [mkErrorEnvelope ("Model '" ++ model_id ++ "' not found in configuration")]
  | some model_config =>
    match lookup st.providers model_config.provider with
    | none => .error ("KeyError: " ++ model_config.provider)
    | some provider_config =>
      if provider_config.type == "openai" then
        .ok (openai_chat_completion model_config upstreamO)
      else if provider_config.type == "anthropic" then
        .ok (anthropic_chat_completion upstreamA)
      else
        .ok [mkErrorEnvelope ("Unsupported provider type: " ++ provider_config.type)]

end UnifiedLLMService

/-! ### LLMClient provider routing (`services/llm_client.py`) -/

namespace LLMClient

/-- The client's state: `self.providers` (an ordered dict mapping provider
name to the initialized provider object, here an abstract handle) and
`settings.CHAT_DEFAULT_PROVIDER`.  Only providers whose initialization
succeeded appear in the dict. -/
structure ClientState where
  providers : List (String × String)
  chat_default_provider : String
deriving DecidableEq, Repr

/-- Python `self.providers.get(name)`. -/
def getProvider (st : ClientState) (name : String) : Option String :=
  (st.providers.find? (fun p => p.1 == name)).map (fun p => p.2)

/-- `LLMClient.get_default_provider`: the configured default provider, else
(when that one is absent but some provider exists) the first provider in
registration order (`next(iter(self.providers.values()))`). -/
def get_default_provider (st : ClientState) : Option String :=
  match getProvider st st.chat_default_provider with
  | some provider => some provider
  | none => (st.providers.head?).map (fun p => p.2)

/-- The model-name prefixes routed to the OpenAI provider. -/
def openaiPrefixes : List String :=
  ["gpt-", "text-", "davinci", "curie", "babbage", "ada"]

/-- `LLMClient.get_provider_for_model`: routing is purely by model-name
prefix; any model id with an unrecognized prefix falls through to the
custom provider, else the default provider — it is NOT checked against any
registry of configured models. -/
def get_provider_for_model (st : ClientState) (model : String) : Option String :=
  if openaiPrefixes.any (fun p => pyStartsWith model p) then getProvider st "openai"
  else if pyStartsWith model "claude-" then getProvider st "anthropic"
  else
    match getProvider st "custom" with
    | some provider => some provider
    | none => get_default_provider st

/-- `LLMClient.chat_completion`'s dispatch: when no provider resolves, a
single `error` envelope is yielded; otherwise the resolved provider's
`chat_completion` is invoked with the requested model (`inl` carries the
provider handle of that call). -/
def chat_completion_dispatch (st : ClientState) (model : String) :
    Sum String StreamingResponse :=
  match get_provider_for_model st model with
  | none => .inr (mkErrorEnvelope ("No provider available for model: " ++ model))
  | some provider => .inl provider

end LLMClient

/-! ### The streaming chat route (`api/chat.py`, `send_message.generate`) -/

namespace ChatRoute

/-- One `data: <json>` server-sent record produced by `generate` (the JSON
field sets of the three record shapes the route emits). -/
inductive SseRecord
  | chunk (content : String)
  | complete (messageId : String) (content : String) (tokens : Int)
  | error (error : Option String)
deriving DecidableEq, Repr

/-- The assistant `ChatMessage` row the route persists on `complete`
(`id` is the database-assigned uuid, passed in as a parameter). -/
structure PersistedMessage where
  id : String
  content : String
  tokens : Option Int
deriving DecidableEq, Repr

/-- Python `len(s.split())`, the route's token-count fallback. -/
def wordCount (s : String) : Int := (pySplitWs s).length

/-- The token count stored on the persisted assistant message:
`chunk.metadata.get("usage", {}).get("output_tokens")` when the `complete`
envelope's metadata and its `usage` entry are both truthy, else the word
count of the accumulated response. -/
def completionTokens (metadata : Option EnvelopeMeta) (full_response : String) : Option Int :=
  match metadata with
  | some m =>
    match m.usage with
    | some u => u.output_tokens
    | none => some (wordCount full_response)
  | none => some (wordCount full_response)

/-- Python `assistant_message.tokens or len(full_response.split())`
(`None` and `0` both fall back). -/
def tokensOrWordCount (tokens : Option Int) (full_response : String) : Int :=
  match tokens with
  | some t => if t = 0 then wordCount full_response else t
  | none => wordCount full_response

/-- The envelope-consuming loop of `send_message.generate`, over the
envelope sequence `llm_client.chat_completion` yields: a `chunk` envelope
appends its content to `full_response` and is forwarded at once; the first
`complete` envelope persists the assistant message with content
`full_response`, emits the completion record referencing the new message
id, and breaks; the first `error` envelope emits an error record and
breaks; envelopes of any other type are ignored.  When the envelope
sequence ends without a terminal envelope the loop just ends: no record is
emitted and nothing is persisted.  Returns the SSE records in emission
order and the persisted assistant message, if any. -/
def generateLoop (msgId : String) :
    List StreamingResponse → String → List SseRecord × Option PersistedMessage
  | [], _ => ([], none)
  | chunk :: rest, full_response =>
    if chunk.type = "chunk" then
      let out := generateLoop msgId rest (full_response ++ chunk.content)
      (.chunk chunk.content :: out.1, out.2)
    else if chunk.type = "complete" then
      let tokens := completionTokens chunk.metadata full_response
      let assistant_message : PersistedMessage :=
        { id := msgId, content := full_response, tokens := tokens }
      ([.complete msgId chunk.content (tokensOrWordCount tokens full_response)],
       some assistant_message)
    else if chunk.type = "error" then
      ([.error chunk.error], none)
    else generateLoop msgId rest full_response

/-- `send_message.generate` given the envelope stream: the loop starts with
an empty accumulator. -/
def generate (envelopes : List StreamingResponse) (msgId : String) :
    List SseRecord × Option PersistedMessage :=
  generateLoop msgId envelopes ""

/-- Whether an SSE record is terminal (a `complete` or `error` record). -/
def isTerminalRecord : SseRecord → Bool
  | .chunk _ => false
  | .complete _ _ _ => true
  | .error _ => true

end ChatRoute

/-! ### Derived definitions used by the claims -/

/-- The priority scan as the corrected claim C3 describes it: the span is
scanned case-insensitively against the high keyword set, then the medium
keyword set (should/need/important/soon), then the low keyword set; the
first set with a member occurring in the span wins, and medium is the
default. (Written from the corrected claim's words, independently of
`priority_keywords`, for comparison with `determine_priority`.) -/
def prioritySpecScan (text : String) : String :=
  let t := pyLower text
  if ["urgent", "critical", "important", "asap", "priority", "immediately"].any
      (fun kw => strContains t kw) then "high"
  else if ["should", "need", "important", "soon"].any (fun kw => strContains t kw) then
    "medium"
  else if ["might", "could", "eventually", "later", "someday"].any
      (fun kw => strContains t kw) then "low"
  else "medium"

/-- The "title-plus-tags word set" of a candidate document, as used both by
the code and by claim C9. -/
def docTitleTagWords (doc : ContextManager.AvailableDocument) : Finset String :=
  ContextManager.findWords
    (pyLower (doc.title.getD "") ++ " " ++
      ContextManager.joinSpace ((doc.tags.getD []).map pyLower))

/-- The relevance condition exactly as claim C9 words it: (a) the lowercased
title or the id occurs as a substring of the lowercased conversation text,
or (b) the number of shared words between the conversation text and the
document's title-plus-tags word set exceeds 2 and that overlap divided by
the size of the document word set exceeds 0.3 (stated multiplicatively). -/
def relevantPerClaim (conversation_text : String) (doc : ContextManager.AvailableDocument) :
    Bool :=
  strContains (pyLower conversation_text) (pyLower (doc.title.getD "")) ||
  strContains (pyLower conversation_text) (doc.id.getD "") ||
  (decide (2 < ((ContextManager.findWords (pyLower conversation_text)) ∩
      docTitleTagWords doc).card) &&
   decide (3 * (docTitleTagWords doc).card <
      10 * ((ContextManager.findWords (pyLower conversation_text)) ∩
        docTitleTagWords doc).card))

/-- A client state like the one the repository's own test suite builds in
`test_get_provider_for_model`: only the custom provider is initialized;
the configured default provider name is "openai". -/
def exampleClientState : LLMClient.ClientState :=
  { providers := [("custom", "custom-provider")], chat_default_provider := "openai" }

/-- A one-model, one-provider service registry for concrete runs. -/
def exampleServiceState : UnifiedLLMService.ServiceState :=
  { models := [("gpt-4",
      { technical_name := "gpt-4-0613", common_name := "GPT-4", provider := "openai" })],
    providers := [("openai", { type := "openai" })] }

/-- Two tasks are not near-duplicates: the word-Jaccard similarity of their
lowercased descriptions does not exceed 0.7. -/
def taskSimilarityLe (a b : ContextManager.ExtractedTask) : Prop :=
  ¬ (ContextManager.text_similarity (pyLower a.description) (pyLower b.description) >
      (7 : ℚ) / 10)

instance : DecidableRel taskSimilarityLe := fun a b => by
  unfold taskSimilarityLe
  infer_instance

/-- The invariant of claim C2: no two tasks of the list have description
similarity exceeding 0.7. -/
def tasksDeduplicated (tasks : List ContextManager.ExtractedTask) : Prop :=
  tasks.Pairwise taskSimilarityLe

/-- The length of the current goal, an absent goal counting as length 0
(`len(context.current_goal or "")`). -/
def goalLength (ctx : ChatContext) : Nat := (ctx.current_goal.getD "").length

/-- A sequence of `update_from_conversation` calls on the same context, each
with its own input pair and clock values. -/
def applyConversations (ctx : ChatContext)
    (calls : List ((Option String × Option String) × Nat × String)) : ChatContext :=
  calls.foldl
    (fun c call =>
      ContextManager.update_from_conversation c call.1.1 call.1.2 call.2.1 call.2.2)
    ctx

/-- A freshly persisted context: empty summary and goal, empty task list. -/
def chatCtx0 : ChatContext :=
  { summary := none, current_goal := none, tasks := some [], relevant_documents := some [] }

/-- The concatenation of the contents of all `chunk` envelopes of a stream,
in emission order. -/
def chunkConcat (envelopes : List StreamingResponse) : String :=
  String.join ((envelopes.filter (fun e => e.type = "chunk")).map (fun e => e.content))

/-! ## Claim C3: priority classification order -/

/-- C3 counterexample: the claim says a span containing the low keyword
"later" and no high keyword is classified low even if it also contains
"should"; the code classifies "should fix this later" as medium, because
the medium keyword set (which contains "should") is scanned before the low
set. -/
theorem determine_priority_medium_before_low_cex :
    ContextManager.determine_priority "should fix this later" = "medium" ∧
    ContextManager.determine_priority "should fix this later" ≠ "low" := by
  constructor
  · decide
  · decide

/-- C3 as corrected: `_determine_priority` scans the span case-insensitively
against the keyword sets in the dict's insertion order high, MEDIUM
(should/need/important/soon), low — not high, low, medium — with the first
matching set winning and medium the default; so a span containing both a
medium and a low keyword (and no high keyword) is medium, and a span
containing "important" is high even though "important" is also a medium
keyword. -/
theorem determine_priority_scan_order (text : String) :
    ContextManager.determine_priority text = prioritySpecScan text := by
  unfold ContextManager.determine_priority prioritySpecScan ContextManager.priority_keywords
  cases h1 : (["urgent", "critical", "important", "asap", "priority", "immediately"].any
      (fun kw => strContains (pyLower text) kw)) <;>
    cases h2 : (["should", "need", "important", "soon"].any
        (fun kw => strContains (pyLower text) kw)) <;>
      cases h3 : (["might", "could", "eventually", "later", "someday"].any
          (fun kw => strContains (pyLower text) kw)) <;>
        simp [List.find?, h1, h2, h3]

/-! ## Claims C9 and C10: document relevance -/

/-- The relevance score test of the code equals the multiplicative form of
the claim, given that the overlap already exceeds two words (which forces
the document word set to be non-empty). -/
theorem relevance_score_iff (w v : Finset String) (h : 2 < (w ∩ v).card) :
    ((if v ≠ (∅ : Finset String) then ((w ∩ v).card : ℚ) / (v.card : ℚ) else 0) > (3 : ℚ) / 10)
      ↔ 3 * v.card < 10 * (w ∩ v).card := by
  have hcard : (w ∩ v).card ≤ v.card := Finset.card_le_card Finset.inter_subset_right
  have hv : v ≠ (∅ : Finset String) := by
    intro he
    rw [he, Finset.inter_empty] at h
    simp at h
  have hvpos : 0 < v.card := by
    rcases Nat.eq_zero_or_pos v.card with h0 | hp
    · exact absurd (Finset.card_eq_zero.mp h0) hv
    · exact hp
  rw [if_pos hv, gt_iff_lt, div_lt_div_iff (by norm_num) (by exact_mod_cast hvpos)]
  constructor
  · intro hlt
    have : (3 * v.card : ℚ) < 10 * (w ∩ v).card := by push_cast; linarith
    exact_mod_cast this
  · intro hlt
    have : (3 * v.card : ℚ) < 10 * (w ∩ v).card := by exact_mod_cast hlt
    push_cast at this ⊢
    linarith

/-- C9: `extract_document_relevance` returns exactly the ids (Python
`doc.get("id", "")`) of the candidates satisfying the claim's relevance
condition, in input candidate order. -/
theorem extract_document_relevance_characterization (conversation_text : String)
    (docs : List ContextManager.AvailableDocument) :
    ContextManager.extract_document_relevance conversation_text docs =
      (docs.filter (relevantPerClaim conversation_text)).map (fun d => d.id.getD "") := by
  unfold ContextManager.extract_document_relevance
  induction docs with
  | nil => rfl
  | cons doc rest ih =>
    have hRP : relevantPerClaim conversation_text doc =
        ((strContains (pyLower conversation_text) (pyLower (doc.title.getD "")) ||
            strContains (pyLower conversation_text) (doc.id.getD "")) ||
          (decide (2 < ((ContextManager.findWords (pyLower conversation_text)) ∩
              docTitleTagWords doc).card) &&
            decide (3 * (docTitleTagWords doc).card <
              10 * ((ContextManager.findWords (pyLower conversation_text)) ∩
                docTitleTagWords doc).card))) := by
      unfold relevantPerClaim
      rw [Bool.or_assoc]
    rw [ContextManager.relevanceLoop, List.filter_cons, hRP]
    have hfold : ContextManager.findWords
        (pyLower (doc.title.getD "") ++ " " ++
          ContextManager.joinSpace ((doc.tags.getD []).map pyLower)) =
        docTitleTagWords doc := rfl
    simp only [hfold]
    cases hdirect : (strContains (pyLower conversation_text) (pyLower (doc.title.getD "")) ||
        strContains (pyLower conversation_text) (doc.id.getD "")) with
    | true =>
      simp only [hdirect, Bool.true_or, if_true, List.map_cons, ih]
    | false =>
      simp only [hdirect, Bool.false_or]
      rw [if_neg (by simp [hdirect])]
      by_cases hover : 2 < ((ContextManager.findWords (pyLower conversation_text)) ∩
          docTitleTagWords doc).card
      · rw [if_pos hover]
        by_cases hscore : 3 * (docTitleTagWords doc).card <
            10 * ((ContextManager.findWords (pyLower conversation_text)) ∩
              docTitleTagWords doc).card
        · rw [if_pos ((relevance_score_iff _ _ hover).mpr hscore)]
          rw [decide_eq_true hover, decide_eq_true hscore]
          simp only [Bool.and_self, if_true, List.map_cons, ih]
        · rw [if_neg (fun hc => hscore ((relevance_score_iff _ _ hover).mp hc))]
          rw [decide_eq_false hscore]
          simp only [Bool.and_false, Bool.false_eq_true, if_neg, ih]
          rw [if_neg (by simp)]
      · rw [if_neg hover, decide_eq_false hover]
        simp only [Bool.false_and]
        rw [if_neg (by simp)]
        exact ih

/-- Lowercasing the empty string gives the empty string. -/
theorem pyLower_empty : pyLower "" = "" := rfl

/-- The empty string occurs as a substring of every string
(Python `"" in s` is always `True`). -/
theorem strContains_empty_needle (s : String) : strContains s "" = true := by
  cases h : s.data <;> simp [strContains, h, List.tails, List.isPrefixOf]

/-- Either the relevance loop admits the head document or it skips it;
either way the tail's output is a suffix. -/
theorem relevanceLoop_cons_cases (conv : String) (d : ContextManager.AvailableDocument)
    (rest : List ContextManager.AvailableDocument) :
    ContextManager.relevanceLoop conv (d :: rest) =
        d.id.getD "" :: ContextManager.relevanceLoop conv rest ∨
      ContextManager.relevanceLoop conv (d :: rest) =
        ContextManager.relevanceLoop conv rest := by
  rw [ContextManager.relevanceLoop]
  dsimp only
  split_ifs <;> first | exact Or.inl rfl | exact Or.inr rfl

/-- C10: a candidate whose title is absent or empty is always classified
relevant (the empty string is a substring of every conversation text), and
likewise a candidate whose id is absent or empty; its id
(`doc.get("id", "")`) appears in the result. -/
theorem empty_title_or_id_relevant (conversation_text : String)
    (docs : List ContextManager.AvailableDocument) (doc : ContextManager.AvailableDocument)
    (hmem : doc ∈ docs) (h : doc.title.getD "" = "" ∨ doc.id.getD "" = "") :
    doc.id.getD "" ∈ ContextManager.extract_document_relevance conversation_text docs := by
  unfold ContextManager.extract_document_relevance
  induction docs with
  | nil => cases hmem
  | cons d rest ih =>
    rcases List.mem_cons.mp hmem with rfl | hmem'
    · rw [ContextManager.relevanceLoop]
      have hcond : (strContains (pyLower conversation_text) (pyLower (doc.title.getD "")) ||
          strContains (pyLower conversation_text) (doc.id.getD "")) = true := by
        rcases h with ht | hi
        · rw [ht, pyLower_empty, strContains_empty_needle]
          simp
        · rw [hi, strContains_empty_needle]
          simp
      simp only [hcond, if_true]
      exact List.mem_cons_self _ _
    · rcases relevanceLoop_cons_cases (pyLower conversation_text) d rest with he | he
      · rw [he]
        exact List.mem_cons_of_mem _ (ih hmem')
      · rw [he]
        exact ih hmem'

/-- C10 witness: a candidate with id "doc1" and no title is relevant to the
conversation "hello". -/
theorem empty_title_or_id_relevant_witness :
    (({ id := some "doc1" } : ContextManager.AvailableDocument) ∈
        [({ id := some "doc1" } : ContextManager.AvailableDocument)] ∧
      (({ id := some "doc1" } : ContextManager.AvailableDocument).title.getD "" = "" ∨
        ({ id := some "doc1" } : ContextManager.AvailableDocument).id.getD "" = "")) ∧
    "doc1" ∈ ContextManager.extract_document_relevance "hello"
      [({ id := some "doc1" } : ContextManager.AvailableDocument)] :=
  ⟨⟨by decide, Or.inl rfl⟩,
    empty_title_or_id_relevant "hello"
      [({ id := some "doc1" } : ContextManager.AvailableDocument)]
      ({ id := some "doc1" } : ContextManager.AvailableDocument) (by decide) (Or.inl rfl)⟩

/-! ## Claim C4: routing of unregistered model ids -/

/-- C4 counterexample: "unknown-model-xyz" is absent from every model
registry, yet `LLMClient.chat_completion` (the client the streaming chat
route uses) dispatches it to the custom provider — a provider call IS made
and no ModelNotFound-style error envelope is produced (the repository's
own test `test_get_provider_for_model` asserts exactly this routing). -/
theorem unknown_model_dispatched_cex :
    LLMClient.chat_completion_dispatch exampleClientState "unknown-model-xyz" =
      Sum.inl "custom-provider" := rfl

/-- C4 as corrected: `UnifiedLLMService.chat_completion` does yield a single
error envelope naming an unregistered model id, independently of the
upstream (so no provider call is made); but `LLMClient` — the client the
streaming chat route actually calls — routes purely by model-name prefix:
a model id with unrecognized prefix is silently dispatched to the custom
or default provider whenever at least one provider is initialized, and the
"No provider available" error envelope occurs only when no provider at all
is initialized. -/
theorem model_routing_amended :
    (∀ (st : UnifiedLLMService.ServiceState) (model_id : String)
        (uO : UnifiedLLMService.UpstreamResult UnifiedLLMService.OpenAILine)
        (uA : UnifiedLLMService.UpstreamResult UnifiedLLMService.AnthropicLine),
        UnifiedLLMService.lookup st.models model_id = none →
        UnifiedLLMService.chat_completion st model_id uO uA =
          .ok [mkErrorEnvelope ("Model '" ++ model_id ++ "' not found in configuration")]) ∧
    (∀ (st : LLMClient.ClientState) (model : String),
        LLMClient.openaiPrefixes.any (fun p => pyStartsWith model p) = false →
        pyStartsWith model "claude-" = false →
        st.providers ≠ [] →
        ∃ provider, LLMClient.chat_completion_dispatch st model = Sum.inl provider) ∧
    (∀ (st : LLMClient.ClientState) (model : String),
        st.providers = [] →
        LLMClient.chat_completion_dispatch st model =
          Sum.inr (mkErrorEnvelope ("No provider available for model: " ++ model))) := by
  refine ⟨?_, ?_, ?_⟩
  · intro st model_id uO uA hlookup
    unfold UnifiedLLMService.chat_completion
    rw [hlookup]
  · intro st model hopenai hclaude hne
    have hroute : ∃ provider, LLMClient.get_provider_for_model st model = some provider := by
      unfold LLMClient.get_provider_for_model
      rw [hopenai, hclaude]
      simp only [Bool.false_eq_true, if_false]
      cases hcustom : LLMClient.getProvider st "custom" with
      | some p => exact ⟨p, rfl⟩
      | none =>
        unfold LLMClient.get_default_provider
        cases hdef : LLMClient.getProvider st st.chat_default_provider with
        | some p => exact ⟨p, rfl⟩
        | none =>
          cases hp : st.providers with
          | nil => exact absurd hp hne
          | cons q qs => exact ⟨q.2, rfl⟩
    rcases hroute with ⟨provider, hprov⟩
    refine ⟨provider, ?_⟩
    unfold LLMClient.chat_completion_dispatch
    rw [hprov]
  · intro st model hempty
    have hget : ∀ name, LLMClient.getProvider st name = none := by
      intro name
      unfold LLMClient.getProvider
      rw [hempty]
      rfl
    unfold LLMClient.chat_completion_dispatch LLMClient.get_provider_for_model
    rw [hget "openai", hget "anthropic", hget "custom"]
    unfold LLMClient.get_default_provider
    rw [hget st.chat_default_provider, hempty]
    split_ifs <;> rfl

/-- C4 witness: the unified service rejects "unknown-model-xyz" with the
ModelNotFound-style envelope, and the prefix router dispatches it to a
provider when one exists. -/
theorem model_routing_amended_witness :
    (UnifiedLLMService.lookup exampleServiceState.models "unknown-model-xyz" = none ∧
      LLMClient.openaiPrefixes.any (fun p => pyStartsWith "unknown-model-xyz" p) = false ∧
      pyStartsWith "unknown-model-xyz" "claude-" = false ∧
      exampleClientState.providers ≠ []) ∧
    UnifiedLLMService.chat_completion exampleServiceState "unknown-model-xyz" (.ok []) (.ok []) =
      .ok [mkErrorEnvelope "Model 'unknown-model-xyz' not found in configuration"] ∧
    (∃ provider, LLMClient.chat_completion_dispatch exampleClientState "unknown-model-xyz" =
      Sum.inl provider) :=
  ⟨⟨by decide, by decide, by decide, by decide⟩,
    model_routing_amended.1 exampleServiceState "unknown-model-xyz" (.ok []) (.ok [])
      (by decide),
    model_routing_amended.2.1 exampleClientState "unknown-model-xyz" (by decide) (by decide)
      (by decide)⟩

/-! ## Helper equations for `update_from_conversation` -/

/-- With two string inputs, `update_from_conversation` applies the task
merge and the goal merge and keeps their result when the summary step
raises (which it always does, see `update_summary`). -/
theorem update_from_conversation_some (ctx : ChatContext) (us as : String) (now : Nat)
    (nowIso : String) :
    ContextManager.update_from_conversation ctx (some us) (some as) now nowIso =
      ContextManager.update_goals
        (ContextManager.update_tasks ctx
          (ContextManager.extract_tasks us nowIso ++ ContextManager.extract_tasks as nowIso)
          now)
        (ContextManager.extract_goals us ++ ContextManager.extract_goals as) := rfl

/-- A `None` user message raises `TypeError` inside the `try` before any
mutation: the context is returned unchanged. -/
theorem update_from_conversation_none_user (ctx : ChatContext) (a : Option String)
    (now : Nat) (nowIso : String) :
    ContextManager.update_from_conversation ctx none a now nowIso = ctx := rfl

/-- A `None` assistant message likewise raises before any mutation. -/
theorem update_from_conversation_none_assistant (ctx : ChatContext) (us : String)
    (now : Nat) (nowIso : String) :
    ContextManager.update_from_conversation ctx (some us) none now nowIso = ctx := rfl

/-- The goal merge never touches the task list. -/
theorem update_goals_tasks (ctx : ChatContext) (gs : List String) :
    (ContextManager.update_goals ctx gs).tasks = ctx.tasks := by
  unfold ContextManager.update_goals
  cases gs with
  | nil => rfl
  | cons g more =>
    dsimp only
    split <;> rfl

/-- The task merge never touches the current goal. -/
theorem update_tasks_current_goal (ctx : ChatContext)
    (new_tasks : List ContextManager.ExtractedTask) (now : Nat) :
    (ContextManager.update_tasks ctx new_tasks now).current_goal = ctx.current_goal := by
  unfold ContextManager.update_tasks
  split <;> rfl

/-! ## Claim C2: the task deduplication invariant -/

/-- The merge loop preserves the deduplication invariant: a task is only
appended after comparing it against every element of the (grown) list. -/
theorem mergeTasksLoop_pairwise (now : Nat)
    (new_tasks : List ContextManager.ExtractedTask) :
    ∀ acc : List ContextManager.ExtractedTask, tasksDeduplicated acc →
      tasksDeduplicated (ContextManager.mergeTasksLoop now acc new_tasks) := by
  induction new_tasks with
  | nil => intro acc h; exact h
  | cons n rest ih =>
    intro acc h
    rw [ContextManager.mergeTasksLoop]
    split
    · exact ih acc h
    · next hdup =>
        apply ih
        unfold tasksDeduplicated at h ⊢
        rw [List.pairwise_append]
        refine ⟨h, List.pairwise_singleton _ _, ?_⟩
        intro a ha b hb
        rw [List.mem_singleton] at hb
        subst hb
        simp only [List.any_eq_true, decide_eq_true_eq, not_exists, not_and] at hdup
        exact hdup a ha

/-- `_update_tasks` preserves the deduplication invariant for any incoming
task list. -/
theorem update_tasks_deduplicated (ctx : ChatContext)
    (new_tasks : List ContextManager.ExtractedTask) (now : Nat)
    (h : tasksDeduplicated (ctx.tasks.getD [])) :
    tasksDeduplicated ((ContextManager.update_tasks ctx new_tasks now).tasks.getD []) := by
  unfold ContextManager.update_tasks
  split
  · exact h
  · exact mergeTasksLoop_pairwise now new_tasks _ h

/-- C2: if the context's task list has no two tasks with word-Jaccard
description similarity above 0.7, then after `update_from_conversation`
merges the newly extracted tasks (whatever the user/assistant texts are),
the task list still has no two such tasks. -/
theorem tasks_remain_deduplicated (ctx : ChatContext)
    (user_message assistant_response : Option String) (now : Nat) (nowIso : String)
    (h : tasksDeduplicated (ctx.tasks.getD [])) :
    tasksDeduplicated ((ContextManager.update_from_conversation ctx user_message
        assistant_response now nowIso).tasks.getD []) := by
  cases user_message with
  | none => rw [update_from_conversation_none_user]; exact h
  | some us =>
    cases assistant_response with
    | none => rw [update_from_conversation_none_assistant]; exact h
    | some as =>
      rw [update_from_conversation_some, update_goals_tasks]
      exact update_tasks_deduplicated ctx _ now h

/-- C2 witness: starting from an empty task list (trivially deduplicated),
a conversation that extracts tasks leaves the merged list deduplicated. -/
theorem tasks_remain_deduplicated_witness :
    tasksDeduplicated (({ tasks := some [] } : ChatContext).tasks.getD []) ∧
    tasksDeduplicated ((ContextManager.update_from_conversation { tasks := some [] }
        (some "I need to fix the login bug") (some "We must fix the login bug now") 5
        "t0").tasks.getD []) :=
  ⟨List.Pairwise.nil,
    tasks_remain_deduplicated { tasks := some [] } (some "I need to fix the login bug")
      (some "We must fix the login bug now") 5 "t0" List.Pairwise.nil⟩

/-! ## Claim C5: goal length monotonicity -/

/-- The goal merge never shortens the current goal. -/
theorem update_goals_length_le (ctx : ChatContext) (gs : List String) :
    goalLength ctx ≤ goalLength (ContextManager.update_goals ctx gs) := by
  unfold ContextManager.update_goals goalLength
  cases gs with
  | nil => exact le_refl _
  | cons g more =>
    dsimp only
    split
    · next hlt => exact le_of_lt hlt
    · exact le_refl _

/-- One `update_from_conversation` call never shortens the current goal. -/
theorem update_from_conversation_goal_mono (ctx : ChatContext)
    (u a : Option String) (now : Nat) (nowIso : String) :
    goalLength ctx ≤
      goalLength (ContextManager.update_from_conversation ctx u a now nowIso) := by
  cases u with
  | none => rw [update_from_conversation_none_user]
  | some us =>
    cases a with
    | none => rw [update_from_conversation_none_assistant]
    | some as =>
      rw [update_from_conversation_some]
      have h1 : goalLength (ContextManager.update_tasks ctx
          (ContextManager.extract_tasks us nowIso ++ ContextManager.extract_tasks as nowIso)
          now) = goalLength ctx := by
        unfold goalLength
        rw [update_tasks_current_goal]
      calc goalLength ctx
          = goalLength (ContextManager.update_tasks ctx
              (ContextManager.extract_tasks us nowIso ++
                ContextManager.extract_tasks as nowIso) now) := h1.symm
        _ ≤ _ := update_goals_length_le _ _

/-- C5: across any sequence of `update_from_conversation` calls the length
of `current_goal` is non-decreasing; and each call either leaves
`current_goal` unchanged, or (both inputs being strings) replaces it with
the longest goal span extracted in that call (ties broken by extraction
order, via `maxByLen`), and only when that span is strictly longer than
the current goal (absent counting as length 0). -/
theorem current_goal_length_nondecreasing (ctx : ChatContext)
    (calls : List ((Option String × Option String) × Nat × String)) :
    goalLength ctx ≤ goalLength (applyConversations ctx calls) ∧
    ∀ (u a : Option String) (now : Nat) (nowIso : String),
      (ContextManager.update_from_conversation ctx u a now nowIso).current_goal =
          ctx.current_goal ∨
      ∃ us as g gs, u = some us ∧ a = some as ∧
        ContextManager.extract_goals us ++ ContextManager.extract_goals as = g :: gs ∧
        (ContextManager.update_from_conversation ctx u a now nowIso).current_goal =
          some (ContextManager.maxByLen g gs) ∧
        goalLength ctx < (ContextManager.maxByLen g gs).length := by
  constructor
  · induction calls generalizing ctx with
    | nil => exact le_refl _
    | cons call rest ih =>
      exact le_trans
        (update_from_conversation_goal_mono ctx call.1.1 call.1.2 call.2.1 call.2.2)
        (ih _)
  · intro u a now nowIso
    cases u with
    | none => exact Or.inl (by rw [update_from_conversation_none_user])
    | some us =>
      cases a with
      | none => exact Or.inl (by rw [update_from_conversation_none_assistant])
      | some as =>
        rw [update_from_conversation_some]
        have h1 : (ContextManager.update_tasks ctx
            (ContextManager.extract_tasks us nowIso ++
              ContextManager.extract_tasks as nowIso) now).current_goal =
            ctx.current_goal := update_tasks_current_goal _ _ _
        cases hg : ContextManager.extract_goals us ++ ContextManager.extract_goals as with
        | nil => exact Or.inl h1
        | cons g gs =>
          rw [ContextManager.update_goals]
          by_cases hlt :
              (((ContextManager.update_tasks ctx
                  (ContextManager.extract_tasks us nowIso ++
                    ContextManager.extract_tasks as nowIso)
                  now).current_goal).getD "").length <
                (ContextManager.maxByLen g gs).length
          · rw [if_pos hlt]
            right
            refine ⟨us, as, g, gs, rfl, rfl, hg, rfl, ?_⟩
            have : goalLength ctx =
                (((ContextManager.update_tasks ctx
                    (ContextManager.extract_tasks us nowIso ++
                      ContextManager.extract_tasks as nowIso)
                    now).current_goal).getD "").length := by
              unfold goalLength
              rw [h1]
            rw [this]
            exact hlt
          · rw [if_neg hlt]
            exact Or.inl h1

/-- C5 witness: one concrete conversation sequence, with the monotonicity
instance read off the theorem. -/
theorem current_goal_length_nondecreasing_witness :
    goalLength chatCtx0 ≤ goalLength (applyConversations chatCtx0
        [((some "My goal is to resolve all authentication issues.", some ""), 0, "t0"),
         ((some "I am trying to fix it now", some ""), 1, "t1")]) :=
  (current_goal_length_nondecreasing chatCtx0
      [((some "My goal is to resolve all authentication issues.", some ""), 0, "t0"),
       ((some "I am trying to fix it now", some ""), 1, "t1")]).1

/-! ## Claim C6: extraction failure semantics -/

/-- C6 (code bug): on every call with string inputs the summary step raises
`AttributeError` (the `ChatContext` model has no `problem_summary`
attribute) and `update_from_conversation` swallows it — but only AFTER the
task and goal mutations were applied in place, so the context state is NOT
preserved when this internal error occurs; a `None` input, by contrast,
fails before any mutation and does leave the context unchanged (and in
both cases nothing propagates to the caller). -/
theorem extraction_error_still_mutates :
    (ContextManager.update_from_conversation_run chatCtx0
        (some "I need to fix the login bug") (some "") 0 "t0").2 =
      some "AttributeError: 'ChatContext' object has no attribute 'problem_summary'" ∧
    (ContextManager.update_from_conversation_run chatCtx0
        (some "I need to fix the login bug") (some "") 0 "t0").1.tasks ≠ chatCtx0.tasks ∧
    (ContextManager.update_from_conversation_run chatCtx0
        (some "I need to fix the login bug") (some "") 0 "t0").1.current_goal ≠
      chatCtx0.current_goal ∧
    ContextManager.update_from_conversation_run chatCtx0 none (some "") 0 "t0" =
      (chatCtx0, some "TypeError: expected string or bytes-like object") := by
  refine ⟨rfl, by decide, by decide, rfl⟩

/-! ## Claim C8: the summary is never set -/

/-- C8 (code bug): with an empty summary and a user message longer than 20
characters whose first sentence exceeds 10 characters, the summary stays
unset — the summary step dies on the missing `problem_summary` attribute
(swallowed by the caller) before assigning anything — although the
function's own (unreachable) logic would have produced exactly the first
sentence the claim describes. -/
theorem summary_never_set :
    (ContextManager.update_from_conversation chatCtx0
        (some "I need to fix the login bug in the auth module. It keeps failing.")
        (some "") 0 "t0").summary = none ∧
    (ContextManager.update_from_conversation_run chatCtx0
        (some "I need to fix the login bug in the auth module. It keeps failing.")
        (some "") 0 "t0").2.isSome = true ∧
    ContextManager.summary_from_message
        "I need to fix the login bug in the auth module. It keeps failing." =
      "I need to fix the login bug in the auth module" := by
  refine ⟨rfl, rfl, rfl⟩

/-! ## Claim C1: streaming termination -/

/-- C1 (code bug): an upstream stream that closes without a completion
marker — here a single content frame with no finish reason, then EOF —
makes the streaming pipeline end with NO terminal envelope: the unified
service yields exactly one `chunk` and nothing else (no `complete`, no
`error`), and the chat route's `generate` then emits only the chunk record
and persists nothing. -/
theorem silent_upstream_close_no_terminal :
    UnifiedLLMService.chat_completion exampleServiceState "gpt-4"
        (.ok [.frame "Hi" none]) (.ok []) =
      .ok [{ type := "chunk", content := "Hi",
             metadata := some { model := some "gpt-4-0613" } }] ∧
    (UnifiedLLMService.openai_chat_completion
        { technical_name := "gpt-4-0613", common_name := "GPT-4", provider := "openai" }
        (.ok [.frame "Hi" none])).filter isTerminal = [] ∧
    ChatRoute.generate
        [{ type := "chunk", content := "Hi",
           metadata := some { model := some "gpt-4-0613" } }] "mid" =
      ([ChatRoute.SseRecord.chunk "Hi"], none) :=
  ⟨rfl, rfl, rfl⟩

/-! ## Claim C7: chunk concatenation equals the persisted content -/

/-- String concatenation is associative. -/
theorem string_append_assoc (a b c : String) : a ++ b ++ c = a ++ (b ++ c) := by
  cases a
  cases b
  cases c
  exact congrArg String.mk (List.append_assoc _ _ _)

/-- The empty string is a right unit for string concatenation. -/
theorem string_append_empty (a : String) : a ++ "" = a := by
  cases a
  exact congrArg String.mk (List.append_nil _)

/-- The empty string is a left unit for string concatenation. -/
theorem string_empty_append (a : String) : "" ++ a = a := by
  cases a
  rfl

/-- Folding concatenation over a list factors out the initial string. -/
theorem string_foldl_append (l : List String) :
    ∀ a : String, l.foldl (fun r s => r ++ s) a = a ++ l.foldl (fun r s => r ++ s) "" := by
  induction l with
  | nil => intro a; exact (string_append_empty a).symm
  | cons x xs ih =>
    intro a
    show xs.foldl _ (a ++ x) = a ++ xs.foldl _ ("" ++ x)
    rw [ih (a ++ x), ih ("" ++ x), string_empty_append, string_append_assoc]

/-- `String.join` over a cons. -/
theorem string_join_cons (s : String) (l : List String) :
    String.join (s :: l) = s ++ String.join l := by
  show l.foldl (fun r t => r ++ t) ("" ++ s) = s ++ l.foldl (fun r t => r ++ t) ""
  rw [string_empty_append, string_foldl_append]

/-- How the route's loop consumes a stream of non-terminal envelopes
followed by one `complete`: every chunk is forwarded as a record and
accumulated, and the `complete` persists the accumulated text. -/
theorem generateLoop_append_complete (msgId : String) (c : String)
    (meta : Option EnvelopeMeta) :
    ∀ (pre : List StreamingResponse) (acc : String),
      (∀ e ∈ pre, e.type ≠ "complete" ∧ e.type ≠ "error") →
      ChatRoute.generateLoop msgId
          (pre ++ [{ type := "complete", content := c, metadata := meta }]) acc =
        ((pre.filter (fun e => e.type = "chunk")).map
            (fun e => ChatRoute.SseRecord.chunk e.content) ++
          [ChatRoute.SseRecord.complete msgId c
            (ChatRoute.tokensOrWordCount
              (ChatRoute.completionTokens meta (acc ++ chunkConcat pre))
              (acc ++ chunkConcat pre))],
         some { id := msgId, content := acc ++ chunkConcat pre,
                tokens := ChatRoute.completionTokens meta (acc ++ chunkConcat pre) }) := by
  intro pre
  induction pre with
  | nil =>
    intro acc _
    have h0 : acc ++ chunkConcat ([] : List StreamingResponse) = acc := string_append_empty acc
    simp only [List.nil_append, h0]
    rfl
  | cons e rest ih =>
    intro acc h
    obtain ⟨hc, he⟩ := h e (List.mem_cons_self _ _)
    rw [List.cons_append, ChatRoute.generateLoop]
    by_cases hck : e.type = "chunk"
    · rw [if_pos hck,
        ih (acc ++ e.content) (fun x hx => h x (List.mem_cons_of_mem _ hx))]
      have hcc : acc ++ e.content ++ chunkConcat rest = acc ++ chunkConcat (e :: rest) := by
        unfold chunkConcat
        rw [List.filter_cons, if_pos (by simp [hck]), List.map_cons, string_join_cons,
          string_append_assoc]
      rw [List.filter_cons, if_pos (by simp [hck]), List.map_cons, hcc]
      dsimp only
      rw [List.cons_append]
    · rw [if_neg hck, if_neg hc, if_neg he,
        ih acc (fun x hx => h x (List.mem_cons_of_mem _ hx))]
      have hcc : chunkConcat (e :: rest) = chunkConcat rest := by
        unfold chunkConcat
        rw [List.filter_cons, if_neg (by simp [hck])]
      rw [List.filter_cons, if_neg (by simp [hck]), hcc]

/-- C7: for every provider event stream consisting of non-terminal
envelopes followed by a terminal `complete`, the route persists an
assistant message whose content is the concatenation of the contents of
all `chunk` envelopes in emission order, and the emitted terminal
`complete` record references that message's id. -/
theorem persisted_content_is_chunk_concat (pre : List StreamingResponse) (c : String)
    (meta : Option EnvelopeMeta) (msgId : String)
    (h : ∀ e ∈ pre, e.type ≠ "complete" ∧ e.type ≠ "error") :
    ∃ (msg : ChatRoute.PersistedMessage) (t : Int),
      (ChatRoute.generate
          (pre ++ [{ type := "complete", content := c, metadata := meta }]) msgId).2 =
        some msg ∧
      msg.content =
        chunkConcat (pre ++ [{ type := "complete", content := c, metadata := meta }]) ∧
      msg.id = msgId ∧
      ((ChatRoute.generate
          (pre ++ [{ type := "complete", content := c, metadata := meta }]) msgId).1).getLast? =
        some (ChatRoute.SseRecord.complete msg.id c t) := by
  have hfull : chunkConcat (pre ++ [{ type := "complete", content := c, metadata := meta }]) =
      "" ++ chunkConcat pre := by
    have hfilter : List.filter (fun e => decide (e.type = "chunk"))
        [({ type := "complete", content := c, metadata := meta } : StreamingResponse)] =
        [] := rfl
    unfold chunkConcat
    rw [List.filter_append, hfilter, List.append_nil, string_empty_append]
  refine ⟨{ id := msgId, content := "" ++ chunkConcat pre,
            tokens := ChatRoute.completionTokens meta ("" ++ chunkConcat pre) },
    ChatRoute.tokensOrWordCount
      (ChatRoute.completionTokens meta ("" ++ chunkConcat pre)) ("" ++ chunkConcat pre),
    ?_, ?_, rfl, ?_⟩
  · unfold ChatRoute.generate
    rw [generateLoop_append_complete msgId c meta pre "" h]
  · exact hfull.symm
  · unfold ChatRoute.generate
    rw [generateLoop_append_complete msgId c meta pre "" h]
    exact List.getLast?_concat _

/-- C7 witness: streaming the three chunks "Hel", "lo ", "world" followed by
a `complete` persists a message whose content is "Hello world". -/
theorem persisted_content_is_chunk_concat_witness :
    (∀ e ∈ [({ type := "chunk", content := "Hel" } : StreamingResponse),
            { type := "chunk", content := "lo " }, { type := "chunk", content := "world" }],
        e.type ≠ "complete" ∧ e.type ≠ "error") ∧
    (∃ (msg : ChatRoute.PersistedMessage) (t : Int),
      (ChatRoute.generate
          ([({ type := "chunk", content := "Hel" } : StreamingResponse),
            { type := "chunk", content := "lo " }, { type := "chunk", content := "world" }] ++
            [{ type := "complete", content := "", metadata := none }]) "m1").2 = some msg ∧
      msg.content =
        chunkConcat
          ([({ type := "chunk", content := "Hel" } : StreamingResponse),
            { type := "chunk", content := "lo " }, { type := "chunk", content := "world" }] ++
            [{ type := "complete", content := "", metadata := none }]) ∧
      msg.id = "m1" ∧
      ((ChatRoute.generate
          ([({ type := "chunk", content := "Hel" } : StreamingResponse),
            { type := "chunk", content := "lo " }, { type := "chunk", content := "world" }] ++
            [{ type := "complete", content := "", metadata := none }]) "m1").1).getLast? =
        some (ChatRoute.SseRecord.complete msg.id "" t)) ∧
    chunkConcat
        ([({ type := "chunk", content := "Hel" } : StreamingResponse),
          { type := "chunk", content := "lo " }, { type := "chunk", content := "world" }] ++
          [{ type := "complete", content := "", metadata := none }]) = "Hello world" :=
  ⟨by decide,
    persisted_content_is_chunk_concat
      [({ type := "chunk", content := "Hel" } : StreamingResponse),
        { type := "chunk", content := "lo " }, { type := "chunk", content := "world" }]
      "" none "m1" (by decide),
    by decide⟩

end DocAnnotator
